import Mathlib

/-!
Verification of the streaming translation core of the Gemma3 vision proxy
(`backend/main.py`).  The development shallowly embeds:

* `stream_ollama` (main.py lines 129-188): the async generator that proxies
  the inference backend's newline-delimited JSON stream as SSE events;
* the prompt normalisation of `stream_analyze` (main.py lines 319-326);
* the SSE/JSON payload encoding `json.dumps({'text': chunk_text})`
  (main.py line 170) together with a client-side JSON string parse.

Events are modelled abstractly (`Event`), with `renderEvent` giving the
exact wire strings the generator yields.  A backend session is modelled by
`Session`: either a connection error while opening the stream, or an
initial HTTP response with a status code, a body, the sequence of lines
delivered by `aiter_lines`, and how the line iteration ends
(`Ending.closed` for a normal close, or an exception mid-stream).

Since `json.loads` is a standard-library call, the parse outcome of each
line is part of the input: a `RawLine` pairs the raw line string with its
classification (`LineContent.jsonFrame` for a JSON object with the fields
the code inspects, `LineContent.invalid` for a line that fails JSON
parsing).  All control flow around those calls is translated directly from
the source.
-/

/-- Models Python `str.strip`'s whitespace test for the ASCII whitespace
characters (space, tab, newline, carriage return, vertical tab, form feed).
Python additionally strips some Unicode space characters; those never occur
in the claims settled here. -/
def pySpace (c : Char) : Bool :=
  c.toNat == 32 || (decide (9 ≤ c.toNat) && decide (c.toNat ≤ 13))

/-- Models Python `str.strip()`: remove leading and trailing whitespace. -/
def pyStrip (s : String) : String :=
  ⟨((s.data.dropWhile pySpace).reverse.dropWhile pySpace).reverse⟩

/-- The fields of a decoded backend JSON object that `stream_ollama`
inspects: the `"response"` fragment when present (the claims quantify over
frames whose fragment is a string), and the truthiness of
`ollama_data.get("done", False)`. -/
structure Frame where
  response : Option String
  done : Bool
deriving DecidableEq, Repr

/-- Outcome of `json.loads` on a (stripped) line: either a JSON object with
the fields of `Frame`, or a `json.JSONDecodeError`. -/
inductive LineContent where
  | jsonFrame (frame : Frame)
  | invalid
deriving DecidableEq, Repr

/-- One line delivered by `resp.aiter_lines()`: the raw string paired with
the `json.loads` classification of its stripped form. -/
abbrev RawLine := String × LineContent

/-- The client-visible stream events of `stream_ollama`:
`text` for `data: {"text": ...}` (main.py lines 170 and 178),
`errorStatus` for the non-2xx initial-status error payload (line 152),
`errorMsg` for the two exception handlers (lines 182 and 185), and
`done` for the terminal `event: done` (line 188). -/
inductive Event where
  | text (fragment : String)
  | errorStatus (status : Nat) (body : String)
  | errorMsg (message : String) (detail : String)
  | done
deriving DecidableEq, Repr

/-- How the backend line iteration ends when it is not cut short by a
`done` frame: the stream closes normally, or `aiter_lines` raises
(`httpx.ConnectError` caught at line 180, anything else at line 183). -/
inductive Ending where
  | closed
  | connectError (detail : String)
  | otherError (detail : String)
deriving DecidableEq, Repr

/-- A backend streaming session as observed by `stream_ollama`: either the
connection attempt itself raises `httpx.ConnectError`, or an initial HTTP
response arrives with a status, a (fully readable) body, the lines the
backend delivers, and the way the line stream ends. -/
inductive Session where
  | connectError (detail : String)
  | response (status : Nat) (body : String) (lines : List RawLine) (ending : Ending)
deriving DecidableEq, Repr

/-- `httpx.Response.raise_for_status` raises exactly on non-2xx statuses. -/
def isSuccess (status : Nat) : Bool :=
  decide (200 ≤ status) && decide (status < 300)

/-- The loop body of `stream_ollama` for one line (main.py lines 156-178):
skip falsy `line_bytes`, strip, skip empty, then either extract the
`"response"` fragment of a parsed frame and report whether `done` was
truthy (which breaks the loop), or fall back to emitting the stripped raw
line as text when JSON parsing fails.  Returns the emitted events and
whether the loop breaks after this line. -/
def processLine : RawLine → List Event × Bool := fun (raw, content) =>
  if raw = "" then ([], false)
  else
    let line := pyStrip raw
    if line = "" then ([], false)
    else
      match content with
      | .jsonFrame f =>
        (match f.response with
         | some chunk => [Event.text chunk]
         | none => [], f.done)
      | .invalid => ([Event.text line], false)

/-- The `async for` loop of `stream_ollama` over all delivered lines,
stopping at the first line whose frame has truthy `done`.  Returns the
emitted events and whether the loop was exited by `break`. -/
def processLines : List RawLine → List Event × Bool
  | [] => ([], false)
  | l :: ls =>
    let (evs, broke) := processLine l
    if broke then (evs, true)
    else
      let (rest, fin) := processLines ls
      (evs ++ rest, fin)

/-- The events contributed by the way the line iteration ended: nothing on
a normal close, one error event from the matching `except` handler
otherwise (main.py lines 180-185). -/
def endingEvents : Ending → List Event
  | .closed => []
  | .connectError d => [Event.errorMsg ("Failed to connect to Ollama") d]
  | .otherError d => [Event.errorMsg ("Internal server error") d]

/-- `stream_ollama` (main.py lines 142-188) as a function from a backend
session to the emitted event sequence.

* `httpx.ConnectError` while opening: error event (line 182), then the
  trailing `done` (line 188).
* Non-2xx initial status: one error event with the status code and the
  fully read body, then `return` (line 153) — the generator ends, so the
  `done` yield at line 188 is never reached.
* 2xx: the line loop runs; if it breaks on a `done` frame the `except`
  handlers are skipped and the trailing `done` is emitted; otherwise the
  ending's events (if any) are followed by the trailing `done`. -/
def streamOllama : Session → List Event
  | .connectError d => [Event.errorMsg ("Failed to connect to Ollama") d, Event.done]
  | .response status body lines ending =>
    if isSuccess status then
      let (evs, broke) := processLines lines
      if broke then evs ++ [Event.done]
      else evs ++ endingEvents ending ++ [Event.done]
    else
      [Event.errorStatus status body]

/-- The default prompt substituted by `stream_analyze` when an image is
present but the prompt is empty (main.py line 324). -/
def defaultPrompt : String := "What is in this image? Describe it in detail."

/-- The prompt validation of `stream_analyze` (main.py lines 319-326):
strip the prompt; if empty with an image, substitute the default prompt;
if empty without an image, reject with HTTP 400 before any stream is
opened; otherwise keep the stripped prompt. -/
def normalizeStreamAnalyze (prompt : String) (hasImage : Bool) : Except Nat String :=
  let p := pyStrip prompt
  if p = "" then
    if hasImage then Except.ok defaultPrompt else Except.error 400
  else Except.ok p

/-! ### SSE / JSON payload encoding

`json.dumps` with its defaults (`ensure_ascii=True`) escapes `"` and `\`,
uses the short escapes for the control characters BS, TAB, LF, FF, CR,
`\uXXXX` for the remaining characters outside `0x20`-`0x7E`, and a UTF-16
surrogate pair `\uXXXX\uXXXX` for characters above `0xFFFF`, with
lowercase hex digits. -/

/-- Lowercase hexadecimal digit for a value below 16. -/
def hexDigit (n : Nat) : Char :=
  match n with
  | 0 => '0' | 1 => '1' | 2 => '2' | 3 => '3' | 4 => '4'
  | 5 => '5' | 6 => '6' | 7 => '7' | 8 => '8' | 9 => '9'
  | 10 => 'a' | 11 => 'b' | 12 => 'c' | 13 => 'd' | 14 => 'e' | _ => 'f'

/-- Four lowercase hex digits of a value below `0x10000`. -/
def hex4 (n : Nat) : List Char :=
  [hexDigit (n / 4096 % 16), hexDigit (n / 256 % 16), hexDigit (n / 16 % 16), hexDigit (n % 16)]

/-- The escape of one character inside a JSON string produced by
`json.dumps` with `ensure_ascii=True`. -/
def escapeChar (c : Char) : List Char :=
  if c = '"' then ['\\', '"']
  else if c = '\\' then ['\\', '\\']
  else if c = '\n' then ['\\', 'n']
  else if c = '\r' then ['\\', 'r']
  else if c = '\t' then ['\\', 't']
  else if c.toNat = 8 then ['\\', 'b']
  else if c.toNat = 12 then ['\\', 'f']
  else if 32 ≤ c.toNat ∧ c.toNat ≤ 126 then [c]
  else if c.toNat < 65536 then '\\' :: 'u' :: hex4 c.toNat
  else
    ('\\' :: 'u' :: hex4 (55296 + (c.toNat - 65536) / 1024)) ++
      ('\\' :: 'u' :: hex4 (56320 + (c.toNat - 65536) % 1024))

/-- Escape every character of a list, concatenating the results. -/
def escList : List Char → List Char
  | [] => []
  | c :: cs => escapeChar c ++ escList cs

/-- The body of the JSON string `json.dumps` produces for `s`. -/
def escString (s : String) : String := ⟨escList s.data⟩

/-- `json.dumps({'text': f})` (main.py line 170): the data payload of a
`Text` SSE event. -/
def textPayload (f : String) : String :=
  ⟨("\x7b\"text\": \"").data ++ escList f.data ++ ("\"\x7d").data⟩

/-- The full SSE event string yielded for a text fragment:
`f"data: {json.dumps({'text': chunk_text})}\n\n"`. -/
def sseTextEvent (f : String) : String :=
  ("data: ") ++ textPayload f ++ ("\n\n")

/-- The exact wire string `stream_ollama` yields for each event
(main.py lines 152, 170, 178, 182, 185, 188). -/
def renderEvent : Event → String
  | .text f => sseTextEvent f
  | .errorStatus code body =>
    ("data: \x7b\"error\": true, \"status_code\": ") ++ toString code ++
      (", \"body\": \"") ++ escString body ++ ("\"\x7d\n\n")
  | .errorMsg msg detail =>
    ("data: \x7b\"error\": true, \"message\": \"") ++ escString msg ++
      ("\", \"detail\": \"") ++ escString detail ++ ("\"\x7d\n\n")
  | .done => ("event: done\ndata: \x7b\x7d\n\n")

/-! ### Client-side JSON string parsing

Modelled from the spec: the client side of the round-trip property
("encoding then parsing a `Text` event's JSON payload on the client side
recovers the exact original fragment string") — the browser client that
performs `JSON.parse` is part of this repository but not under `src/`, so
its parse of the payload shape `{"text": "..."}` is modelled here by the
standard JSON string-escape rules. -/

/-- Numeric value of a hexadecimal digit character. -/
def hexVal (c : Char) : Option Nat :=
  let n := c.toNat
  if 48 ≤ n ∧ n ≤ 57 then some (n - 48)
  else if 97 ≤ n ∧ n ≤ 102 then some (n - 87)
  else if 65 ≤ n ∧ n ≤ 70 then some (n - 55)
  else none

/-- One token inside a JSON string body: the closing quote, or one decoded
character. -/
inductive Tok where
  | close
  | chr (c : Char)
deriving DecidableEq, Repr

/-- Read one token of a JSON string body: the closing `"`, a plain
character, or an escape sequence (`\"`, `\\`, `\/`, `\n`, `\r`, `\t`,
`\b`, `\f`, `\uXXXX`, or a `\uXXXX\uXXXX` surrogate pair). -/
def readTok : List Char → Option (Tok × List Char)
  | [] => none
  | c :: rest =>
    if c = '"' then some (.close, rest)
    else if c = '\\' then
      match rest with
      | [] => none
      | e :: rest2 =>
        if e = '"' then some (.chr '"', rest2)
        else if e = '\\' then some (.chr '\\', rest2)
        else if e = '/' then some (.chr '/', rest2)
        else if e = 'n' then some (.chr '\n', rest2)
        else if e = 'r' then some (.chr '\r', rest2)
        else if e = 't' then some (.chr '\t', rest2)
        else if e = 'b' then some (.chr (Char.ofNat 8), rest2)
        else if e = 'f' then some (.chr (Char.ofNat 12), rest2)
        else if e = 'u' then
          match rest2 with
          | h1 :: h2 :: h3 :: h4 :: rest3 =>
            match hexVal h1, hexVal h2, hexVal h3, hexVal h4 with
            | some x1, some x2, some x3, some x4 =>
              let n := x1 * 4096 + x2 * 256 + x3 * 16 + x4
              if 55296 ≤ n ∧ n < 56320 then
                match rest3 with
                | b1 :: u1 :: g1 :: g2 :: g3 :: g4 :: rest4 =>
                  if b1 = '\\' ∧ u1 = 'u' then
                    match hexVal g1, hexVal g2, hexVal g3, hexVal g4 with
                    | some y1, some y2, some y3, some y4 =>
                      let m := y1 * 4096 + y2 * 256 + y3 * 16 + y4
                      if 56320 ≤ m ∧ m < 57344 then
                        some (.chr (Char.ofNat (65536 + (n - 55296) * 1024 + (m - 56320))), rest4)
                      else none
                    | _, _, _, _ => none
                  else none
                | _ => none
              else if 56320 ≤ n ∧ n < 57344 then none
              else some (.chr (Char.ofNat n), rest3)
            | _, _, _, _ => none
          | _ => none
        else none
    else some (.chr c, rest)

/-- Parse a JSON string body (everything after the opening quote) into its
decoded characters and the input remaining after the closing quote.
Fuel-indexed; each token consumes at least one input character, so
`length + 1` fuel always suffices (see `unescBody`). -/
def unescBodyF : Nat → List Char → Option (List Char × List Char)
  | 0, _ => none
  | fuel + 1, l =>
    match readTok l with
    | none => none
    | some (.close, rest) => some ([], rest)
    | some (.chr c, rest) =>
      match unescBodyF fuel rest with
      | some (s, r) => some (c :: s, r)
      | none => none

/-- Parse a JSON string body. -/
def unescBody (l : List Char) : Option (List Char × List Char) :=
  unescBodyF (l.length + 1) l

/-- Remove an expected leading sequence, or fail. -/
def dropLeading : List Char → List Char → Option (List Char)
  | [], l => some l
  | _ :: _, [] => none
  | p :: ps, c :: cs => if c = p then dropLeading ps cs else none

/-- Client-side parse of the payload of a `Text` SSE event: expects
exactly the object shape `{"text": "..."}` that `json.dumps` produces and
returns the decoded string field. -/
def parseTextPayload (p : String) : Option String :=
  match dropLeading ("\x7b\"text\": \"").data p.data with
  | none => none
  | some body =>
    match unescBody body with
    | some (s, r) => if r = ['\x7d'] then some ⟨s⟩ else none
    | none => none


/-! ### Helper lemmas -/

theorem hexVal_hexDigit : ∀ k, k < 16 → hexVal (hexDigit k) = some k := by decide

theorem char_toNat_valid (c : Char) :
    c.toNat < 55296 ∨ (57344 ≤ c.toNat ∧ c.toNat < 1114112) := by
  have hc : c.toNat = c.val.toNat := rfl
  rcases c.valid with h | ⟨h1, h2⟩
  · exact Or.inl (by omega)
  · exact Or.inr ⟨by omega, by omega⟩

theorem readTok_hexEscape (d1 d2 d3 d4 : Char) (x1 x2 x3 x4 : Nat)
    (e1 : hexVal d1 = some x1) (e2 : hexVal d2 = some x2)
    (e3 : hexVal d3 = some x3) (e4 : hexVal d4 = some x4)
    (hlo : ¬(55296 ≤ x1 * 4096 + x2 * 256 + x3 * 16 + x4 ∧
        x1 * 4096 + x2 * 256 + x3 * 16 + x4 < 56320))
    (hhi : ¬(56320 ≤ x1 * 4096 + x2 * 256 + x3 * 16 + x4 ∧
        x1 * 4096 + x2 * 256 + x3 * 16 + x4 < 57344))
    (r : List Char) :
    readTok ('\\' :: 'u' :: d1 :: d2 :: d3 :: d4 :: r)
      = some (.chr (Char.ofNat (x1 * 4096 + x2 * 256 + x3 * 16 + x4)), r) := by
  simp [readTok, e1, e2, e3, e4, hlo, hhi]

theorem readTok_surrogate (d1 d2 d3 d4 d5 d6 d7 d8 : Char) (x1 x2 x3 x4 x5 x6 x7 x8 : Nat)
    (e1 : hexVal d1 = some x1) (e2 : hexVal d2 = some x2)
    (e3 : hexVal d3 = some x3) (e4 : hexVal d4 = some x4)
    (e5 : hexVal d5 = some x5) (e6 : hexVal d6 = some x6)
    (e7 : hexVal d7 = some x7) (e8 : hexVal d8 = some x8)
    (hn1 : 55296 ≤ x1 * 4096 + x2 * 256 + x3 * 16 + x4)
    (hn2 : x1 * 4096 + x2 * 256 + x3 * 16 + x4 < 56320)
    (hm1 : 56320 ≤ x5 * 4096 + x6 * 256 + x7 * 16 + x8)
    (hm2 : x5 * 4096 + x6 * 256 + x7 * 16 + x8 < 57344)
    (r : List Char) :
    readTok ('\\' :: 'u' :: d1 :: d2 :: d3 :: d4 :: '\\' :: 'u' :: d5 :: d6 :: d7 :: d8 :: r)
      = some (.chr (Char.ofNat (65536 +
          (x1 * 4096 + x2 * 256 + x3 * 16 + x4 - 55296) * 1024 +
          (x5 * 4096 + x6 * 256 + x7 * 16 + x8 - 56320))), r) := by
  simp [readTok, e1, e2, e3, e4, e5, e6, e7, e8, hn1, hn2, hm1, hm2]

theorem readTok_escapeChar (c : Char) (r : List Char) :
    readTok (escapeChar c ++ r) = some (.chr c, r) := by
  have hv := char_toNat_valid c
  unfold escapeChar
  split_ifs with h1 h2 h3 h4 h5 h6 h7 h8 h9
  · subst h1; rfl
  · subst h2; rfl
  · subst h3; rfl
  · subst h4; rfl
  · subst h5; rfl
  · have hc : Char.ofNat 8 = c := by rw [← h6, Char.ofNat_toNat]
    rw [← hc]; rfl
  · have hc : Char.ofNat 12 = c := by rw [← h7, Char.ofNat_toNat]
    rw [← hc]; rfl
  · show readTok (c :: r) = some (Tok.chr c, r)
    simp only [readTok]
    rw [if_neg h1, if_neg h2]
  · show readTok ('\\' :: 'u' :: hexDigit (c.toNat / 4096 % 16) :: hexDigit (c.toNat / 256 % 16) ::
        hexDigit (c.toNat / 16 % 16) :: hexDigit (c.toNat % 16) :: r) = some (Tok.chr c, r)
    rw [readTok_hexEscape _ _ _ _ _ _ _ _
        (hexVal_hexDigit _ (by omega)) (hexVal_hexDigit _ (by omega))
        (hexVal_hexDigit _ (by omega)) (hexVal_hexDigit _ (by omega))
        (by omega) (by omega) r]
    have hE : c.toNat / 4096 % 16 * 4096 + c.toNat / 256 % 16 * 256 + c.toNat / 16 % 16 * 16 +
        c.toNat % 16 = c.toNat := by omega
    rw [hE, Char.ofNat_toNat]
  · show readTok ('\\' :: 'u' ::
        hexDigit ((55296 + (c.toNat - 65536) / 1024) / 4096 % 16) ::
        hexDigit ((55296 + (c.toNat - 65536) / 1024) / 256 % 16) ::
        hexDigit ((55296 + (c.toNat - 65536) / 1024) / 16 % 16) ::
        hexDigit ((55296 + (c.toNat - 65536) / 1024) % 16) :: '\\' :: 'u' ::
        hexDigit ((56320 + (c.toNat - 65536) % 1024) / 4096 % 16) ::
        hexDigit ((56320 + (c.toNat - 65536) % 1024) / 256 % 16) ::
        hexDigit ((56320 + (c.toNat - 65536) % 1024) / 16 % 16) ::
        hexDigit ((56320 + (c.toNat - 65536) % 1024) % 16) :: r) = some (Tok.chr c, r)
    rw [readTok_surrogate _ _ _ _ _ _ _ _ _ _ _ _ _ _ _ _
        (hexVal_hexDigit _ (by omega)) (hexVal_hexDigit _ (by omega))
        (hexVal_hexDigit _ (by omega)) (hexVal_hexDigit _ (by omega))
        (hexVal_hexDigit _ (by omega)) (hexVal_hexDigit _ (by omega))
        (hexVal_hexDigit _ (by omega)) (hexVal_hexDigit _ (by omega))
        (by omega) (by omega) (by omega) (by omega) r]
    have hE : 65536 +
        ((55296 + (c.toNat - 65536) / 1024) / 4096 % 16 * 4096 +
         (55296 + (c.toNat - 65536) / 1024) / 256 % 16 * 256 +
         (55296 + (c.toNat - 65536) / 1024) / 16 % 16 * 16 +
         (55296 + (c.toNat - 65536) / 1024) % 16 - 55296) * 1024 +
        ((56320 + (c.toNat - 65536) % 1024) / 4096 % 16 * 4096 +
         (56320 + (c.toNat - 65536) % 1024) / 256 % 16 * 256 +
         (56320 + (c.toNat - 65536) % 1024) / 16 % 16 * 16 +
         (56320 + (c.toNat - 65536) % 1024) % 16 - 56320) = c.toNat := by omega
    rw [hE, Char.ofNat_toNat]

theorem unescBodyF_escList (cs : List Char) : ∀ (fuel : Nat) (r : List Char),
    cs.length < fuel → unescBodyF fuel (escList cs ++ '"' :: r) = some (cs, r) := by
  induction cs with
  | nil =>
    intro fuel r h
    match fuel with
    | fuel + 1 => simp [unescBodyF, escList, readTok]
  | cons c cs ih =>
    intro fuel r h
    match fuel with
    | fuel + 1 =>
      have hl : escList (c :: cs) ++ '"' :: r = escapeChar c ++ (escList cs ++ '"' :: r) := by
        simp [escList]
      rw [hl]
      simp only [unescBodyF, readTok_escapeChar]
      rw [ih fuel r (by simp at h; omega)]

theorem le_escList_length (cs : List Char) : cs.length ≤ (escList cs).length := by
  induction cs with
  | nil => simp [escList]
  | cons c cs ih =>
    have h : 1 ≤ (escapeChar c).length := by
      unfold escapeChar
      split_ifs <;> simp [hex4]
    simp only [escList, List.length_append, List.length_cons]
    omega

theorem dropLeading_append (p l : List Char) : dropLeading p (p ++ l) = some l := by
  induction p with
  | nil => rfl
  | cons c p ih => simp [dropLeading, ih]

theorem parseTextPayload_textPayload (f : String) : parseTextPayload (textPayload f) = some f := by
  have hlen := le_escList_length f.data
  unfold parseTextPayload textPayload
  rw [show (String.mk (("\x7b\"text\": \"").data ++ escList f.data ++ ("\"\x7d").data)).data
      = ("\x7b\"text\": \"").data ++ (escList f.data ++ '"' :: ['\x7d']) from by simp]
  rw [dropLeading_append]
  show (match unescBody (escList f.data ++ '"' :: ['\x7d']) with
    | some (s, r) => if r = ['\x7d'] then some (String.mk s) else none
    | none => none) = some f
  rw [show unescBody (escList f.data ++ '"' :: ['\x7d'])
      = unescBodyF ((escList f.data ++ '"' :: ['\x7d']).length + 1) (escList f.data ++ '"' :: ['\x7d']) from rfl]
  rw [unescBodyF_escList f.data _ ['\x7d']
      (by simp only [List.length_append, List.length_cons]
          have hc : f.length = f.data.length := rfl
          omega)]
  rfl

theorem hexDigit_ne_newline : ∀ n, hexDigit n ≠ '\n' := by
  intro n; unfold hexDigit; split <;> decide

theorem newline_ne_hexDigit : ∀ n, '\n' ≠ hexDigit n :=
  fun n h => hexDigit_ne_newline n h.symm

theorem newline_not_mem_escapeChar (c : Char) : '\n' ∉ escapeChar c := by
  unfold escapeChar
  split_ifs with h1 h2 h3 h4 h5 h6 h7 h8 h9
  · decide
  · decide
  · decide
  · decide
  · decide
  · decide
  · decide
  · simp only [List.mem_singleton]
    intro h
    subst h
    exact absurd h8.1 (by decide)
  · simp [hex4, newline_ne_hexDigit]
  · simp [hex4, newline_ne_hexDigit]

theorem newline_not_mem_escList (cs : List Char) : '\n' ∉ escList cs := by
  induction cs with
  | nil => simp [escList]
  | cons c cs ih =>
    simp only [escList, List.mem_append, not_or]
    exact ⟨newline_not_mem_escapeChar c, ih⟩

theorem newline_not_mem_textPayload (f : String) : '\n' ∉ (textPayload f).data := by
  unfold textPayload
  show '\n' ∉ ("\x7b\"text\": \"").data ++ escList f.data ++ ("\"\x7d").data
  simp only [List.mem_append, not_or]
  refine ⟨⟨by decide, newline_not_mem_escList f.data⟩, by decide⟩

theorem processLines_append (a b : List RawLine) :
    processLines (a ++ b) =
      if (processLines a).2 then processLines a
      else ((processLines a).1 ++ (processLines b).1, (processLines b).2) := by
  induction a with
  | nil => simp [processLines]
  | cons l ls ih =>
    rcases h : processLine l with ⟨evs, broke⟩
    simp only [List.cons_append, processLines, h]
    cases broke
    · by_cases hb : (processLines ls).2
      · simp [ih, hb]
      · simp [ih, hb]
    · simp

theorem pyStrip_empty : pyStrip ("") = "" := rfl

theorem ne_empty_of_pyStrip_ne (raw : String) (h : pyStrip raw ≠ "") : raw ≠ "" :=
  fun he => h (by rw [he]; exact pyStrip_empty)

theorem processLine_frame (raw : String) (fr : Frame) (h : pyStrip raw ≠ "") :
    processLine (raw, LineContent.jsonFrame fr) = ((fr.response.map Event.text).toList, fr.done) := by
  have hr := ne_empty_of_pyStrip_ne raw h
  cases hfr : fr.response <;> simp [processLine, hr, h, hfr]

theorem processLines_fragmentLines : ∀ (lines : List (String × String)),
    (∀ p ∈ lines, pyStrip p.1 ≠ "") →
    processLines (lines.map fun p => (p.1, LineContent.jsonFrame ⟨some p.2, false⟩))
      = (lines.map fun p => Event.text p.2, false) := by
  intro lines
  induction lines with
  | nil => intro _; simp [processLines]
  | cons p ps ih =>
    intro h
    have hp : pyStrip p.1 ≠ "" := h p (by simp)
    have hline := processLine_frame p.1 ⟨some p.2, false⟩ hp
    simp only [List.map_cons, processLines, hline]
    rw [ih (fun q hq => h q (by simp [hq]))]
    simp

theorem processLines_framesNoDone : ∀ (lines : List (String × Frame)),
    (∀ p ∈ lines, pyStrip p.1 ≠ "" ∧ p.2.done = false) →
    processLines (lines.map fun p => (p.1, LineContent.jsonFrame p.2))
      = ((lines.filterMap fun p => p.2.response).map Event.text, false) := by
  intro lines
  induction lines with
  | nil => intro _; simp [processLines]
  | cons p ps ih =>
    intro h
    obtain ⟨hp, hd⟩ := h p (by simp)
    have hline := processLine_frame p.1 p.2 hp
    rw [hd] at hline
    simp only [List.map_cons, processLines, hline]
    rw [ih (fun q hq => h q (by simp [hq]))]
    cases hr : p.2.response <;> simp [List.filterMap_cons, hr]

/-! ### Claims -/

/-- C1: if the backend connection fails mid-stream after k frames with
fragments have been decoded, `stream_ollama` emits exactly the k `Text`
events, then exactly one `Error` event describing the failure, then one
`Done` event as the final event. -/
theorem streaming_failure_error_then_done (body : String) (lines : List (String × String))
    (e : Ending) (h : ∀ p ∈ lines, pyStrip p.1 ≠ "") (he : e ≠ Ending.closed) :
    streamOllama (Session.response 200 body
        (lines.map fun p => (p.1, LineContent.jsonFrame ⟨some p.2, false⟩)) e)
      = (lines.map fun p => Event.text p.2) ++ endingEvents e ++ [Event.done] ∧
    ∃ m d, endingEvents e = [Event.errorMsg m d] := by
  constructor
  · simp [streamOllama, isSuccess, processLines_fragmentLines lines h]
  · cases e with
    | closed => exact absurd rfl he
    | connectError d => exact ⟨_, d, rfl⟩
    | otherError d => exact ⟨_, d, rfl⟩

/-- Witness for C1: two decoded fragments, then a mid-stream failure:
exactly two `Text` events, one `Error` event, then `Done`. -/
theorem streaming_failure_error_then_done_witness :
    streamOllama (Session.response 200 ("")
        [(("\x7b\"response\": \"Hi\"\x7d"), LineContent.jsonFrame ⟨some ("Hi"), false⟩),
         (("\x7b\"response\": \" there\"\x7d"), LineContent.jsonFrame ⟨some (" there"), false⟩)]
        (Ending.otherError ("peer closed connection")))
      = [Event.text ("Hi"), Event.text (" there"),
         Event.errorMsg ("Internal server error") ("peer closed connection"), Event.done] := by
  have h := streaming_failure_error_then_done ("")
    [(("\x7b\"response\": \"Hi\"\x7d"), ("Hi")), (("\x7b\"response\": \" there\"\x7d"), (" there"))]
    (Ending.otherError ("peer closed connection")) (by decide) (by decide)
  simpa using h.1

/-- C2, counterexample: when the initial status is 500 the emitted stream
is the single `Error` event — no `Done` event follows it (the generator's
`return` at main.py line 153 skips the `done` yield at line 188),
contradicting the claim that the `Error` event is followed by `Done`. -/
theorem status500_counterexample :
    streamOllama (Session.response 500 ("err") [] Ending.closed)
      = [Event.errorStatus 500 ("err")] ∧
    Event.done ∉ streamOllama (Session.response 500 ("err") [] Ending.closed) := by
  decide

/-- C2, amended: when the backend's initial HTTP response status is 500,
the output of `stream_ollama` is exactly one `Error` event carrying status
code 500 and the response body, with zero `Text` events and no `Done`
event. -/
theorem status500_error_only (body : String) (lines : List RawLine) (e : Ending) :
    streamOllama (Session.response 500 body lines e) = [Event.errorStatus 500 body] ∧
    Event.done ∉ streamOllama (Session.response 500 body lines e) ∧
    ∀ f, Event.text f ∉ streamOllama (Session.response 500 body lines e) := by
  have h1 : streamOllama (Session.response 500 body lines e) = [Event.errorStatus 500 body] := by
    simp [streamOllama, isSuccess]
  exact ⟨h1, by rw [h1]; simp, fun f => by rw [h1]; simp⟩

/-- C3: on a non-2xx initial status, `stream_ollama` emits exactly one
`Error` event with the backend's status code and the fully read body, no
`Done` event, and no `Text` events (no frame decoding). -/
theorem non2xx_error_no_done (status : Nat) (body : String) (lines : List RawLine) (e : Ending)
    (h : ¬(200 ≤ status ∧ status < 300)) :
    streamOllama (Session.response status body lines e) = [Event.errorStatus status body] ∧
    Event.done ∉ streamOllama (Session.response status body lines e) ∧
    ∀ f, Event.text f ∉ streamOllama (Session.response status body lines e) := by
  have hs : isSuccess status = false := by
    simp only [isSuccess, Bool.and_eq_false_imp, decide_eq_true_eq, decide_eq_false_iff_not]
    omega
  have h1 : streamOllama (Session.response status body lines e) = [Event.errorStatus status body] := by
    simp [streamOllama, hs]
  exact ⟨h1, by rw [h1]; simp, fun f => by rw [h1]; simp⟩

/-- Witness for C3 at status 404. -/
theorem non2xx_error_no_done_witness :
    streamOllama (Session.response 404 ("nope") [] Ending.closed)
      = [Event.errorStatus 404 ("nope")] ∧
    Event.done ∉ streamOllama (Session.response 404 ("nope") [] Ending.closed) ∧
    ∀ f, Event.text f ∉ streamOllama (Session.response 404 ("nope") [] Ending.closed) :=
  non2xx_error_no_done 404 ("nope") [] Ending.closed (by omega)

/-- C4: for a backend line sequence of well-formed frames terminated by a
frame with `done == true`, the stream is one `Text` event per frame with a
present fragment, in frame order, followed by exactly one `Done` event as
the last event (the ending of the underlying byte stream is never
consulted). -/
theorem done_terminated_stream (body : String) (init : List (String × Frame))
    (lastRaw : String) (lastFrame : Frame) (e : Ending)
    (h1 : ∀ p ∈ init, pyStrip p.1 ≠ "" ∧ p.2.done = false)
    (h2 : pyStrip lastRaw ≠ "") (h3 : lastFrame.done = true) :
    streamOllama (Session.response 200 body
        ((init ++ [(lastRaw, lastFrame)]).map fun p => (p.1, LineContent.jsonFrame p.2)) e)
      = (((init ++ [(lastRaw, lastFrame)]).filterMap fun p => p.2.response).map Event.text)
          ++ [Event.done] := by
  have hinit := processLines_framesNoDone init h1
  have hlast := processLine_frame lastRaw lastFrame h2
  rw [h3] at hlast
  have hsingle : processLines [(lastRaw, LineContent.jsonFrame lastFrame)]
      = ((lastFrame.response.map Event.text).toList, true) := by
    simp [processLines, hlast]
  simp only [streamOllama, List.map_append, List.map_cons, List.map_nil]
  rw [if_pos (by decide), processLines_append, hinit, hsingle]
  cases hr : lastFrame.response <;>
    simp [List.filterMap_append, List.filterMap_cons, hr]

/-- Witness for C4: two fragment frames then a `done:true` frame carrying
a final fragment. -/
theorem done_terminated_stream_witness :
    streamOllama (Session.response 200 ("")
        [(("\x7b\"response\": \"a\"\x7d"), LineContent.jsonFrame ⟨some ("a"), false⟩),
         (("\x7b\"response\": \"b\"\x7d"), LineContent.jsonFrame ⟨some ("b"), false⟩),
         (("\x7b\"response\": \"c\", \"done\": true\x7d"), LineContent.jsonFrame ⟨some ("c"), true⟩)]
        (Ending.otherError ("never read")))
      = [Event.text ("a"), Event.text ("b"), Event.text ("c"), Event.done] := by
  have h := done_terminated_stream ("")
    [(("\x7b\"response\": \"a\"\x7d"), ⟨some ("a"), false⟩),
     (("\x7b\"response\": \"b\"\x7d"), ⟨some ("b"), false⟩)]
    ("\x7b\"response\": \"c\", \"done\": true\x7d") ⟨some ("c"), true⟩
    (Ending.otherError ("never read")) (by decide) (by decide) rfl
  simpa using h

/-- C5, counterexample: the malformed line `" ping "` (leading/trailing
whitespace, not JSON) yields `Text "ping"` — the payload carries the
stripped line (main.py line 159), not the raw line content `" ping "`,
contradicting the claim. -/
theorem malformed_line_strip_counterexample :
    streamOllama (Session.response 200 ("") [((" ping "), LineContent.invalid)] Ending.closed)
      = [Event.text ("ping"), Event.done] ∧
    Event.text (" ping ")
      ∉ streamOllama (Session.response 200 ("") [((" ping "), LineContent.invalid)] Ending.closed) := by
  decide

/-- C5, amended: every input line that is non-empty after whitespace
stripping and fails JSON parsing yields exactly one `Text` event carrying
the stripped line content, and it neither drops, reorders, nor alters the
events of the surrounding lines (whitespace-only lines yield no event at
all). -/
theorem malformed_line_fallback (pre post : List RawLine) (raw : String)
    (h : pyStrip raw ≠ "") (hpre : (processLines pre).2 = false) :
    processLines (pre ++ (raw, LineContent.invalid) :: post)
      = ((processLines pre).1 ++ Event.text (pyStrip raw) :: (processLines post).1,
         (processLines post).2) := by
  have hr := ne_empty_of_pyStrip_ne raw h
  rw [processLines_append, if_neg (by simp [hpre])]
  simp [processLines, processLine, hr, h]

/-- Witness for C5 amended. -/
theorem malformed_line_fallback_witness :
    processLines [(("oops"), LineContent.invalid)] = ([Event.text ("oops")], false) := by
  have h := malformed_line_fallback [] [] ("oops") (by decide) (by decide)
  simpa using h

/-- C6, counterexample: the line `{"model": "gemma3"}` parses as a JSON
object with no `responseFragment` and `done` not true; `stream_ollama`
emits no event at all for it (the claim demands a `Text` event via the
raw-text fallback). -/
theorem absent_fragment_counterexample :
    streamOllama (Session.response 200 ("")
        [(("\x7b\"model\": \"gemma3\"\x7d"), LineContent.jsonFrame ⟨none, false⟩)] Ending.closed)
      = [Event.done] := by
  decide

/-- C6, amended: a valid JSON frame whose `responseFragment` is absent
(and whose `done` is not true) produces no event at all — it is silently
skipped, leaving the surrounding stream unchanged; the raw-text fallback
applies only to lines that fail JSON parsing. -/
theorem absent_fragment_skipped (pre post : List RawLine) (raw : String) :
    processLines (pre ++ (raw, LineContent.jsonFrame ⟨none, false⟩) :: post)
      = processLines (pre ++ post) := by
  have hline : processLine (raw, LineContent.jsonFrame ⟨none, false⟩) = ([], false) := by
    unfold processLine
    dsimp only
    split_ifs <;> rfl
  rw [processLines_append, processLines_append]
  have hcons : processLines ((raw, LineContent.jsonFrame ⟨none, false⟩) :: post)
      = processLines post := by
    simp [processLines, hline]
  rw [hcons]

/-- C7: on a frame with `done == true`, any fragment present in that frame
is emitted as a `Text` event, the `Done` event immediately follows, and no
later lines (nor the stream's ending) are processed or emitted. -/
theorem done_frame_stops (body : String) (pre : List RawLine) (raw : String) (fr : Frame)
    (post : List RawLine) (e : Ending)
    (hpre : (processLines pre).2 = false) (h : pyStrip raw ≠ "") (hd : fr.done = true) :
    streamOllama (Session.response 200 body (pre ++ (raw, LineContent.jsonFrame fr) :: post) e)
      = (processLines pre).1 ++ (fr.response.map Event.text).toList ++ [Event.done] := by
  have hline := processLine_frame raw fr h
  rw [hd] at hline
  have hcons : processLines ((raw, LineContent.jsonFrame fr) :: post)
      = ((fr.response.map Event.text).toList, true) := by
    simp [processLines, hline]
  have hall : processLines (pre ++ (raw, LineContent.jsonFrame fr) :: post)
      = ((processLines pre).1 ++ (fr.response.map Event.text).toList, true) := by
    rw [processLines_append, hcons]
    rw [if_neg (by simp [hpre])]
  simp only [streamOllama]
  rw [if_pos (by decide), hall]
  simp

/-- Witness for C7: the `done:true` frame's fragment is emitted, the
following line is never processed, and `Done` ends the stream. -/
theorem done_frame_stops_witness :
    streamOllama (Session.response 200 ("")
        [(("\x7b\"response\": \"end\", \"done\": true\x7d"), LineContent.jsonFrame ⟨some ("end"), true⟩),
         (("\x7b\"response\": \"never\"\x7d"), LineContent.jsonFrame ⟨some ("never"), false⟩)]
        (Ending.otherError ("never read")))
      = [Event.text ("end"), Event.done] := by
  have h := done_frame_stops ("") []
    ("\x7b\"response\": \"end\", \"done\": true\x7d") ⟨some ("end"), true⟩
    [(("\x7b\"response\": \"never\"\x7d"), LineContent.jsonFrame ⟨some ("never"), false⟩)]
    (Ending.otherError ("never read")) (by decide) (by decide) rfl
  simpa using h

/-- C8: parsing the JSON data payload of the `Text` SSE event produced for
a fragment `f` and extracting its text field recovers exactly `f` (for
every string, including quotes, newlines, and non-ASCII characters), and
the serialized payload contains no raw newline, so it occupies a single
SSE data line. -/
theorem sse_payload_roundtrip (f : String) :
    parseTextPayload (textPayload f) = some f ∧ '\n' ∉ (textPayload f).data :=
  ⟨parseTextPayload_textPayload f, newline_not_mem_textPayload f⟩

/-- C9: for the stream-analyze endpoint, an empty (after trimming) prompt
with no image is rejected with HTTP 400 before a stream is opened, and an
empty prompt with an image present is replaced by the fixed default
prompt. -/
theorem stream_analyze_empty_prompt (prompt : String) (h : pyStrip prompt = "") :
    normalizeStreamAnalyze prompt false = Except.error 400 ∧
    normalizeStreamAnalyze prompt true = Except.ok defaultPrompt := by
  simp [normalizeStreamAnalyze, h]

/-- Witness for C9 on a whitespace-only prompt. -/
theorem stream_analyze_empty_prompt_witness :
    normalizeStreamAnalyze ("  ") false = Except.error 400 ∧
    normalizeStreamAnalyze ("  ") true = Except.ok defaultPrompt :=
  stream_analyze_empty_prompt ("  ") (by decide)

/-- C10: a valid frame whose `responseFragment` is present but the empty
string (and whose `done` is not true) still yields a `Text` event carrying
the empty string; the frame is not skipped. -/
theorem empty_fragment_emitted (body raw : String) (e : Ending) (h : pyStrip raw ≠ "") :
    streamOllama (Session.response 200 body
        [(raw, LineContent.jsonFrame ⟨some (""), false⟩)] e)
      = Event.text ("") :: (endingEvents e ++ [Event.done]) := by
  have hline := processLine_frame raw ⟨some (""), false⟩ h
  simp only [streamOllama]
  rw [if_pos (by decide)]
  simp [processLines, hline]

/-- Witness for C10. -/
theorem empty_fragment_emitted_witness :
    streamOllama (Session.response 200 ("")
        [(("\x7b\"response\": \"\"\x7d"), LineContent.jsonFrame ⟨some (""), false⟩)] Ending.closed)
      = Event.text ("") :: (endingEvents Ending.closed ++ [Event.done]) :=
  empty_fragment_emitted ("") ("\x7b\"response\": \"\"\x7d") Ending.closed (by decide)
